import Mathlib

/-!
Verification of the LULC-analytics decision engine (src/App.js, dashboard
version).  The analytic core is a set of pure functions over two tables:
transition records and a per-class yearly time series.  We embed those
functions shallowly: JS numbers become rationals, `toFixed(n)` becomes
rounding to n decimal places (JS picks the larger candidate on ties, which
matches Mathlib round = floor (x + 1/2)), and the stable ES2019
Array.prototype.sort becomes a stable insertion sort (any two stable sorts
under the same comparator produce the same list).  Math.log10 is
transcendental, so the evolution analyzer takes the logarithm as an explicit
function parameter; theorems that need it assume only its nonnegativity on
inputs at least 1, which holds for the real log base 10.
-/

namespace LULC

/-- Rounding to 1 decimal place, the value of JS toFixed(1). -/
def round1 (q : ℚ) : ℚ := ((round (q * 10) : ℤ) : ℚ) / 10

/-- Rounding to 2 decimal places, the value of JS toFixed(2). -/
def round2 (q : ℚ) : ℚ := ((round (q * 100) : ℤ) : ℚ) / 100

/-- Rounding to an integer, the value of JS toFixed(0). -/
def round0 (q : ℚ) : ℚ := ((round q : ℤ) : ℚ)

theorem round2_nonneg {q : ℚ} (h : 0 ≤ q) : 0 ≤ round2 q := by
  unfold round2
  have h1 : (0 : ℤ) ≤ round (q * 100) := by
    rw [round_eq]
    refine Int.le_floor.mpr ?_
    push_cast
    linarith
  positivity

theorem round2_le_one {q : ℚ} (h : q ≤ 1) : round2 q ≤ 1 := by
  unfold round2
  have h1 : round (q * 100) ≤ 100 := by
    rw [round_eq]
    calc ⌊q * 100 + 1 / 2⌋ ≤ ⌊(100 : ℚ) + 1 / 2⌋ := by
          apply Int.floor_le_floor; linarith
      _ = 100 := by norm_num [Int.floor_eq_iff]
  rw [div_le_one (by norm_num)]
  exact_mod_cast h1

/-! ## A stable sort, modelling ES2019 Array.prototype.sort

`insertBy lt x l` walks past every element `y` with `lt y x` (y strictly
precedes x in the target order) and places `x` in front of the first element
that does not strictly precede it.  Folding it over the input gives a stable
sort: the output of any stable sort under a fixed comparator is unique, so
this is the list the JS engine produces. -/

def insertBy (lt : α → α → Bool) (x : α) : List α → List α
  | [] => [x]
  | y :: ys => if lt y x then y :: insertBy lt x ys else x :: y :: ys

def sortByLt (lt : α → α → Bool) : List α → List α
  | [] => []
  | x :: xs => insertBy lt x (sortByLt lt xs)

/-- Stable descending sort by a key, as the JS comparator (a,b) => key b - key a. -/
def sortDescBy [LinearOrder β] (key : α → β) : List α → List α :=
  sortByLt (fun y x => decide (key x < key y))

/-- Stable ascending sort by a key, as the JS comparator (a,b) => key a - key b. -/
def sortAscBy [LinearOrder β] (key : α → β) : List α → List α :=
  sortByLt (fun y x => decide (key y < key x))

theorem perm_insertBy (lt : α → α → Bool) (x : α) :
    ∀ l : List α, List.Perm (insertBy lt x l) (x :: l) := by
  intro l
  induction l with
  | nil => simp [insertBy]
  | cons y ys ih =>
    by_cases h : lt y x = true
    · simpa [insertBy, h] using
        ((ih.cons y).trans (List.Perm.swap x y ys))
    · simp [insertBy, h]

theorem perm_sortByLt (lt : α → α → Bool) :
    ∀ l : List α, List.Perm (sortByLt lt l) l := by
  intro l
  induction l with
  | nil => simp [sortByLt]
  | cons x xs ih =>
    exact (perm_insertBy lt x (sortByLt lt xs)).trans (ih.cons x)

theorem mem_sortByLt {lt : α → α → Bool} {l : List α} {a : α} :
    a ∈ sortByLt lt l ↔ a ∈ l :=
  (perm_sortByLt lt l).mem_iff

theorem length_sortByLt (lt : α → α → Bool) (l : List α) :
    (sortByLt lt l).length = l.length :=
  (perm_sortByLt lt l).length_eq

theorem pairwise_insertBy_desc [LinearOrder β] (key : α → β) (x : α) :
    ∀ {l : List α}, l.Pairwise (fun a b => key b ≤ key a) →
      (insertBy (fun y x => decide (key x < key y)) x l).Pairwise
        (fun a b => key b ≤ key a) := by
  intro l
  induction l with
  | nil => intro _; simp [insertBy]
  | cons y ys ih =>
    intro hp
    rcases List.pairwise_cons.mp hp with ⟨hy, hys⟩
    by_cases h : key x < key y
    · rw [insertBy, if_pos (by simpa using h)]
      refine List.pairwise_cons.mpr ⟨?_, ih hys⟩
      intro z hz
      rcases List.mem_cons.mp ((perm_insertBy _ x ys).mem_iff.mp hz) with
        rfl | hz
      · exact le_of_lt h
      · exact hy z hz
    · rw [insertBy, if_neg (by simpa using h)]
      refine List.pairwise_cons.mpr ⟨?_, hp⟩
      intro z hz
      rcases List.mem_cons.mp hz with rfl | hz
      · exact le_of_not_lt h
      · exact (hy z hz).trans (le_of_not_lt h)

theorem pairwise_sortDescBy [LinearOrder β] (key : α → β) (l : List α) :
    (sortDescBy key l).Pairwise (fun a b => key b ≤ key a) := by
  induction l with
  | nil => simp [sortDescBy, sortByLt]
  | cons x xs ih => exact pairwise_insertBy_desc key x ih

theorem filter_insertBy_desc [LinearOrder β] [DecidableEq β]
    (key : α → β) (x : α) (c : β) :
    ∀ l : List α,
      (insertBy (fun y x => decide (key x < key y)) x l).filter
          (fun a => key a == c) =
        if key x = c then x :: l.filter (fun a => key a == c)
        else l.filter (fun a => key a == c) := by
  intro l
  induction l with
  | nil =>
    by_cases h : key x = c <;>
      simp [insertBy, List.filter_cons, beq_iff_eq, h]
  | cons y ys ih =>
    by_cases h : key x < key y
    · rw [insertBy, if_pos (by simpa using h)]
      by_cases hxc : key x = c
      · have hyc : ¬ key y = c := by
          intro hyc; rw [hxc] at h; rw [hyc] at h; exact lt_irrefl c h
        simp [List.filter_cons, beq_iff_eq, hxc, hyc, ih]
      · by_cases hyc : key y = c <;>
          simp [List.filter_cons, beq_iff_eq, hxc, hyc, ih]
    · rw [insertBy, if_neg (by simpa using h)]
      by_cases hxc : key x = c <;>
        simp [List.filter_cons, beq_iff_eq, hxc]

theorem filter_sortDescBy [LinearOrder β] [DecidableEq β]
    (key : α → β) (c : β) (l : List α) :
    (sortDescBy key l).filter (fun a => key a == c) =
      l.filter (fun a => key a == c) := by
  induction l with
  | nil => simp [sortDescBy, sortByLt]
  | cons x xs ih =>
    rw [sortDescBy, sortByLt]
    rw [filter_insertBy_desc key x c (sortByLt _ xs)]
    by_cases hxc : key x = c <;>
      simp [List.filter_cons, hxc, ← ih, sortDescBy]

theorem map_insertBy (lt : α → α → Bool) (ltg : γ → γ → Bool)
    (f : α → γ) (hf : ∀ a b, ltg (f a) (f b) = lt a b) (x : α) :
    ∀ l : List α,
      (insertBy lt x l).map f = insertBy ltg (f x) (l.map f) := by
  intro l
  induction l with
  | nil => simp [insertBy]
  | cons y ys ih =>
    by_cases h : lt y x = true
    · rw [insertBy, if_pos h, List.map_cons, ih, List.map_cons,
        insertBy, if_pos (by rw [hf]; exact h)]
    · rw [insertBy, if_neg h]
      simp only [List.map_cons]
      rw [insertBy, if_neg (by rw [hf]; exact h)]

theorem map_sortByLt (lt : α → α → Bool) (ltg : γ → γ → Bool)
    (f : α → γ) (hf : ∀ a b, ltg (f a) (f b) = lt a b) :
    ∀ l : List α, (sortByLt lt l).map f = sortByLt ltg (l.map f) := by
  intro l
  induction l with
  | nil => simp [sortByLt]
  | cons x xs ih =>
    rw [sortByLt, List.map_cons, sortByLt, ← ih,
      map_insertBy lt ltg f hf]

theorem map_sortDescBy [LinearOrder β] (keyA : α → β) (keyG : γ → β)
    (f : α → γ) (h : ∀ a, keyG (f a) = keyA a) (l : List α) :
    (sortDescBy keyA l).map f = sortDescBy keyG (l.map f) := by
  unfold sortDescBy
  exact map_sortByLt _ _ f (fun a b => by rw [h a, h b]) l

theorem mem_sortDescBy [LinearOrder β] {key : α → β} {l : List α} {a : α} :
    a ∈ sortDescBy key l ↔ a ∈ l := by
  unfold sortDescBy; exact mem_sortByLt

theorem mem_sortAscBy [LinearOrder β] {key : α → β} {l : List α} {a : α} :
    a ∈ sortAscBy key l ↔ a ∈ l := by
  unfold sortAscBy; exact mem_sortByLt

theorem getLastD_mem : ∀ (l : List α) (d : α), l ≠ [] → l.getLastD d ∈ l := by
  intro l
  induction l with
  | nil => intro d h; exact absurd rfl h
  | cons x xs ih =>
    intro d _
    cases hxs : xs with
    | nil => subst hxs; simp
    | cons y ys =>
      subst hxs
      have hmem := ih x (by simp)
      simp only [List.getLastD_cons] at hmem ⊢
      exact List.mem_cons_of_mem x hmem

/-! ## Data model

Transition flow records as consumed by the evolution analyzer
(fields year, from, to, area, confidence in the source; `from` is a Lean
keyword, so the class fields are called fromClass and toClass, the names the
recommender uses locally). -/

structure FlowRecord where
  year : ℚ
  fromClass : String
  toClass : String
  area : ℚ
  confidence : ℚ
deriving DecidableEq, Repr

def dummyFlow : FlowRecord := ⟨0, "", "", 0, 0⟩

/-- Derived per-transition metrics, the object literal returned for each
group by analyzeTransitionEvolution.  The JS code stores several fields as
toFixed strings; every later use coerces them back to their numeric value,
so we store that rounded numeric value. -/
structure TransitionEvolution where
  transition : String
  history : List FlowRecord
  totalVolume : ℚ
  latestFlow : ℚ
  trend : String
  trendColor : String
  deviationRatio : ℚ
  anomaly : String
  anomalyColor : String
  isConfStable : Bool
  confRange : ℚ
  cpri : ℚ
  readiness : String
  readinessColor : String
deriving DecidableEq, Repr

/-! ## TransitionEvolutionAnalyzer (analyzeTransitionEvolution) -/

/-- Transition key: the template string from + arrow + to. -/
def transitionKey (d : FlowRecord) : String :=
  d.fromClass ++ " → " ++ d.toClass

/-- Keys in first-insertion order: the enumeration order of the string-keyed
JS object built by the grouping loop. -/
def insertionKeys [DecidableEq β] (f : α → β) (l : List α) : List β :=
  l.foldl (fun ks d => if f d ∈ ks then ks else ks ++ [f d]) []

/-- The group of records sharing a key, in input order. -/
def groupOf (k : String) (data : List FlowRecord) : List FlowRecord :=
  data.filter (fun d => transitionKey d == k)

/-- The group history sorted by year ascending, comparator (a,b) => a.year - b.year. -/
def sortedGroup (g : List FlowRecord) : List FlowRecord :=
  sortAscBy (fun d => d.year) g

/-- The latest record of a group, `sorted[sorted.length-1]` in the source
(groups are nonempty by construction, so the fallback is never consulted). -/
def latestOf (g : List FlowRecord) : FlowRecord :=
  (sortedGroup g).getLastD dummyFlow

/-- Cumulative volume, reduce((sum,d) => sum + d.area, 0). -/
def cumulativeVolumeOf (g : List FlowRecord) : ℚ :=
  (sortedGroup g).foldl (fun s d => s + d.area) 0

/-- Baseline average: mean area of all-but-last records, or the latest area
when there is no history. -/
def baselineAvgOf (g : List FlowRecord) : ℚ :=
  let sorted := sortedGroup g
  let baselineRecs := sorted.take (sorted.length - 1)
  if 0 < baselineRecs.length then
    (baselineRecs.foldl (fun s d => s + d.area) 0) / (baselineRecs.length : ℚ)
  else (latestOf g).area

/-- Deviation ratio latest.area / baselineAvg, defaulting to 1.0 when the
baseline is not positive. -/
def deviationRatioOf (g : List FlowRecord) : ℚ :=
  if 0 < baselineAvgOf g then (latestOf g).area / baselineAvgOf g else 1

/-- Range of the group confidences, Math.max(...confs) - Math.min(...confs). -/
def confRangeOf (g : List FlowRecord) : ℚ :=
  let confs := (sortedGroup g).map (fun d => d.confidence)
  confs.foldl max (confs.headD 0) - confs.foldl min (confs.headD 0)

/-- Confidence stability: range < 0.10. -/
def isConfStableOf (g : List FlowRecord) : Bool :=
  decide (confRangeOf g < 0.10)

/-- Trend classification from the last two records (label, color). -/
def trendOf (g : List FlowRecord) : String × String :=
  let sorted := sortedGroup g
  if 1 < sorted.length then
    let lastFlow := (sorted.getD (sorted.length - 1) dummyFlow).area
    let prevFlow := (sorted.getD (sorted.length - 2) dummyFlow).area
    if prevFlow * 1.15 < lastFlow then ("Accelerating", "#EF4444")
    else if lastFlow < prevFlow * 0.85 then ("Decelerating", "#10B981")
    else ("Stable", "#64748B")
  else ("Stable", "#64748B")

/-- CPRI of a group.  Math.log10 is transcendental, so the logarithm is an
explicit function parameter of the analyzer; theorems assume of it only what
they need (nonnegativity at arguments of at least one). -/
def cpriOf (log10 : ℚ → ℚ) (g : List FlowRecord) : ℚ :=
  let logVolume := log10 ((latestOf g).area + 1)
  let normalizedImpact := min (logVolume / 2) 1
  let trustFactor : ℚ := if isConfStableOf g then 1 else 0.8
  round2 (normalizedImpact * trustFactor * (latestOf g).confidence)

/-- The per-group result object of analyzeTransitionEvolution. -/
def evolveGroup (log10 : ℚ → ℚ) (k : String) (g : List FlowRecord) :
    TransitionEvolution :=
  let cpri := cpriOf log10 g
  { transition := k
    history := sortedGroup g
    totalVolume := round1 (cumulativeVolumeOf g)
    latestFlow := (latestOf g).area
    trend := (trendOf g).1
    trendColor := (trendOf g).2
    deviationRatio := round1 (deviationRatioOf g)
    anomaly :=
      if 2 < deviationRatioOf g then "Surge 🚨"
      else if 1.3 < deviationRatioOf g then "Elevated ⚠️" else "Normal"
    anomalyColor :=
      if 2 < deviationRatioOf g then "#EF4444"
      else if 1.3 < deviationRatioOf g then "#F59E0B" else "#64748B"
    isConfStable := isConfStableOf g
    confRange := round2 (confRangeOf g)
    cpri := cpri
    readiness :=
      if 0.75 ≤ cpri then "Ready for Action ✅"
      else if 0.45 ≤ cpri then "Policy Review ⚠️" else "Field Validation"
    readinessColor :=
      if 0.75 ≤ cpri then "#10B981"
      else if 0.45 ≤ cpri then "#F59E0B" else "#EF4444" }

/-- The mapped, not yet ranked, list of evolutions (the value before the
final .sort call in the source). -/
def analyzeTransitionEvolutionPre (log10 : ℚ → ℚ) (data : List FlowRecord) :
    List TransitionEvolution :=
  (insertionKeys transitionKey data).map
    (fun k => evolveGroup log10 k (groupOf k data))

/-- The full analyzer: group, compute metrics, rank descending by cpri via
the stable sort comparator (a,b) => b.cpri - a.cpri. -/
def analyzeTransitionEvolution (log10 : ℚ → ℚ) (data : List FlowRecord) :
    List TransitionEvolution :=
  sortDescBy (fun e => e.cpri) (analyzeTransitionEvolutionPre log10 data)

theorem mem_insertionKeys [DecidableEq β] {f : α → β} {l : List α} {b : β}
    (hb : b ∈ insertionKeys f l) : ∃ a ∈ l, f a = b := by
  have key : ∀ (l : List α) (acc : List β),
      b ∈ l.foldl (fun ks d => if f d ∈ ks then ks else ks ++ [f d]) acc →
      b ∈ acc ∨ ∃ a ∈ l, f a = b := by
    intro l
    induction l with
    | nil => intro acc h; exact Or.inl h
    | cons x xs ih =>
      intro acc h
      rw [List.foldl_cons] at h
      rcases ih _ h with hacc | ⟨a, ha, hfa⟩
      · by_cases hx : f x ∈ acc
        · rw [if_pos hx] at hacc; exact Or.inl hacc
        · rw [if_neg hx] at hacc
          rcases List.mem_append.mp hacc with h1 | h2
          · exact Or.inl h1
          · exact Or.inr ⟨x, List.mem_cons_self x xs, (List.mem_singleton.mp h2).symm⟩
      · exact Or.inr ⟨a, List.mem_cons_of_mem x ha, hfa⟩
  rcases key l [] hb with h | h
  · simp at h
  · exact h

theorem latestOf_mem {g : List FlowRecord} (hg : g ≠ []) : latestOf g ∈ g := by
  have hlen : (sortedGroup g).length = g.length :=
    length_sortByLt _ g
  have hne : sortedGroup g ≠ [] := by
    intro h0
    apply hg
    apply List.length_eq_zero.mp
    rw [← hlen, h0]
    rfl
  exact mem_sortAscBy.mp (getLastD_mem _ _ hne)

theorem headD_mem {l : List α} {d : α} (h : l ≠ []) : l.headD d ∈ l := by
  cases l with
  | nil => exact absurd rfl h
  | cons x xs => simp

theorem mul3_mem_unit {a b c : ℚ} (ha0 : 0 ≤ a) (ha1 : a ≤ 1)
    (hb0 : 0 ≤ b) (hb1 : b ≤ 1) (hc0 : 0 ≤ c) (hc1 : c ≤ 1) :
    0 ≤ a * b * c ∧ a * b * c ≤ 1 := by
  constructor
  · exact mul_nonneg (mul_nonneg ha0 hb0) hc0
  · have h1 : a * b ≤ 1 := by
      calc a * b ≤ 1 * 1 := mul_le_mul ha1 hb1 hb0 zero_le_one
        _ = 1 := by norm_num
    calc a * b * c ≤ 1 * 1 := mul_le_mul h1 hc1 hc0 zero_le_one
      _ = 1 := by norm_num

theorem cpriOf_mem_unit (log10 : ℚ → ℚ)
    (hlog : ∀ a : ℚ, 0 ≤ a → 0 ≤ log10 (a + 1)) (g : List FlowRecord)
    (harea : 0 ≤ (latestOf g).area)
    (hconf0 : 0 ≤ (latestOf g).confidence)
    (hconf1 : (latestOf g).confidence ≤ 1) :
    0 ≤ cpriOf log10 g ∧ cpriOf log10 g ≤ 1 := by
  unfold cpriOf
  have hni0 : 0 ≤ min (log10 ((latestOf g).area + 1) / 2) 1 :=
    le_min (div_nonneg (hlog _ harea) (by norm_num)) zero_le_one
  have hni1 : min (log10 ((latestOf g).area + 1) / 2) 1 ≤ 1 :=
    min_le_right _ _
  have htf0 : (0 : ℚ) ≤ (if isConfStableOf g then 1 else 0.8) := by
    split <;> norm_num
  have htf1 : (if isConfStableOf g then (1 : ℚ) else 0.8) ≤ 1 := by
    split <;> norm_num
  obtain ⟨hp0, hp1⟩ :=
    mul3_mem_unit hni0 hni1 htf0 htf1 hconf0 hconf1
  exact ⟨round2_nonneg hp0, round2_le_one hp1⟩

/-- Claim C1: every transition group produced by the
TransitionEvolutionAnalyzer from records with nonnegative area and
confidence in the unit interval has a cpri value in the unit interval.  The
logarithm hypothesis holds for the real base-10 logarithm, which is
nonnegative at arguments of at least one. -/
theorem claim_C1_cpri_unit_interval (log10 : ℚ → ℚ)
    (hlog : ∀ a : ℚ, 0 ≤ a → 0 ≤ log10 (a + 1))
    (data : List FlowRecord)
    (hdata : ∀ d ∈ data, 0 ≤ d.area ∧ 0 ≤ d.confidence ∧ d.confidence ≤ 1) :
    ∀ e ∈ analyzeTransitionEvolution log10 data,
      0 ≤ e.cpri ∧ e.cpri ≤ 1 := by
  intro e he
  rw [analyzeTransitionEvolution] at he
  have he2 : e ∈ analyzeTransitionEvolutionPre log10 data :=
    mem_sortDescBy.mp he
  rcases List.mem_map.mp he2 with ⟨k, hk, rfl⟩
  rcases mem_insertionKeys hk with ⟨d, hd, hfd⟩
  have hg : d ∈ groupOf k data :=
    List.mem_filter.mpr ⟨hd, by simp [hfd]⟩
  have hne : groupOf k data ≠ [] := by
    intro hnil; rw [hnil] at hg; exact absurd hg (List.not_mem_nil d)
  have hmem : latestOf (groupOf k data) ∈ data :=
    (List.mem_filter.mp (latestOf_mem hne)).1
  obtain ⟨h1, h2, h3⟩ := hdata _ hmem
  exact cpriOf_mem_unit log10 hlog (groupOf k data) h1 h2 h3

def demoFlows : List FlowRecord := [⟨2024, "Forest", "Built-up", 3, 1/2⟩]

def dummyEvo : TransitionEvolution :=
  ⟨"", [], 0, 0, "", "", 0, "", "", false, 0, 0, "", ""⟩

/-- Witness for C1: the theorem applied to a one-record table and the zero
logarithm (which satisfies the nonnegativity hypothesis). -/
theorem claim_C1_witness :
    0 ≤ ((analyzeTransitionEvolution (fun _ => (0 : ℚ)) demoFlows).headD
          dummyEvo).cpri ∧
    ((analyzeTransitionEvolution (fun _ => (0 : ℚ)) demoFlows).headD
          dummyEvo).cpri ≤ 1 := by
  have hlen : (analyzeTransitionEvolution (fun _ => (0 : ℚ)) demoFlows).length
      = 1 := by
    rw [analyzeTransitionEvolution]
    unfold sortDescBy
    rw [length_sortByLt, analyzeTransitionEvolutionPre, List.length_map]
    simp [insertionKeys, demoFlows]
  have hne : analyzeTransitionEvolution (fun _ => (0 : ℚ)) demoFlows ≠ [] := by
    intro h0; rw [h0] at hlen; exact absurd hlen (by simp)
  exact claim_C1_cpri_unit_interval (fun _ => 0) (fun a _ => le_rfl) demoFlows
    (by
      intro d hd
      rcases List.mem_singleton.mp hd with rfl
      refine ⟨by norm_num, by norm_num, by norm_num⟩)
    ((analyzeTransitionEvolution (fun _ => (0 : ℚ)) demoFlows).headD dummyEvo)
    (headD_mem hne)

/-- Claim C2: the evolutions list returned by the analyzer is sorted
non-increasing by cpri, and filtering it at any fixed cpri value gives the
same sublist, in the same order, as filtering the unranked mapped list: the
final sort is stable, ties keep their prior relative order. -/
theorem claim_C2_ranked_by_cpri_stable (log10 : ℚ → ℚ)
    (data : List FlowRecord) :
    (analyzeTransitionEvolution log10 data).Pairwise
        (fun a b => b.cpri ≤ a.cpri) ∧
    ∀ c : ℚ,
      (analyzeTransitionEvolution log10 data).filter
          (fun (e : TransitionEvolution) => e.cpri == c) =
        (analyzeTransitionEvolutionPre log10 data).filter
          (fun (e : TransitionEvolution) => e.cpri == c) := by
  constructor
  · exact pairwise_sortDescBy _ _
  · intro c
    exact filter_sortDescBy (fun (e : TransitionEvolution) => e.cpri) c _

/-! ## SurveyBudgetOptimizer (getBudgetOptimizedSurveys) -/

/-- JS Array.prototype.slice(0, e): a negative end index counts from the end
of the list and out-of-range values clamp. -/
def jsSliceTo (l : List α) (e : ℤ) : List α :=
  l.take (if e < 0 then ((l.length : ℤ) + e).toNat else e.toNat)

/-- JS Array.prototype.slice(s): a negative start index counts from the end
of the list and out-of-range values clamp. -/
def jsSliceFrom (l : List α) (s : ℤ) : List α :=
  l.drop (if s < 0 then ((l.length : ℤ) + s).toNat else s.toNat)

def surveyCostPerSite : ℤ := 1200

structure SurveyTask where
  fromClass : String
  toClass : String
  confidence : ℚ
  area_sq_km : ℚ
  id : String
deriving DecidableEq, Repr

structure SurveyAllocation where
  selected : List SurveyTask
  deferredCount : ℕ
  totalCost : ℤ
  maxPossible : ℤ
deriving DecidableEq, Repr

/-- The budget survey optimizer.  The budget state variable is an integer
(its input handler parses with parseInt and clamps with Math.max(0, ...));
the function itself is modelled over any integer budget, with Math.floor of
the division as flooring integer division. -/
def getBudgetOptimizedSurveys (budget : ℤ)
    (transitionTrends : List TransitionEvolution) : SurveyAllocation :=
  let candidates := transitionTrends.filter
    (fun d => decide (d.cpri < 0.45))
  let rankedCandidates :=
    sortDescBy (fun (d : TransitionEvolution) => d.latestFlow) candidates
  let maxSites := Int.fdiv budget surveyCostPerSite
  let selectedSites := jsSliceTo rankedCandidates maxSites
  let deferredSites := jsSliceFrom rankedCandidates maxSites
  { selected := selectedSites.map (fun s =>
      { fromClass := (s.history.getLastD dummyFlow).fromClass
        toClass := (s.history.getLastD dummyFlow).toClass
        confidence := (s.history.getLastD dummyFlow).confidence
        area_sq_km := s.latestFlow
        id := s.transition })
    deferredCount := deferredSites.length
    totalCost := (selectedSites.length : ℤ) * surveyCostPerSite
    maxPossible := maxSites }

/-- Claim C4, amended: the two counting identities hold for every budget,
and the selection bound holds for every nonnegative budget (the only
budgets the clamped input control can produce).  For a negative budget the
JS negative-slice semantics select all but the last few candidates, so the
bound fails there; see the counterexample. -/
theorem claim_C4_allocation_identities
    (transitionTrends : List TransitionEvolution) (budget : ℤ) :
    (0 ≤ budget →
      ((getBudgetOptimizedSurveys budget transitionTrends).selected.length : ℤ)
        ≤ Int.fdiv budget surveyCostPerSite) ∧
    (getBudgetOptimizedSurveys budget transitionTrends).selected.length
        + (getBudgetOptimizedSurveys budget transitionTrends).deferredCount
      = (transitionTrends.filter
          (fun d => decide (d.cpri < 0.45))).length ∧
    (getBudgetOptimizedSurveys budget transitionTrends).totalCost
      = ((getBudgetOptimizedSurveys budget
            transitionTrends).selected.length : ℤ) * surveyCostPerSite := by
  simp only [getBudgetOptimizedSurveys, jsSliceTo, jsSliceFrom,
    List.length_map, List.length_take, List.length_drop]
  refine ⟨?_, ?_, by trivial⟩
  · intro hb
    have hdiv : 0 ≤ Int.fdiv budget surveyCostPerSite :=
      Int.fdiv_nonneg hb (by norm_num [surveyCostPerSite])
    rw [if_neg (not_lt.mpr hdiv)]
    calc ((min (Int.fdiv budget surveyCostPerSite).toNat
            (sortDescBy (fun (d : TransitionEvolution) => d.latestFlow)
              (transitionTrends.filter
                (fun d => decide (d.cpri < 0.45)))).length : ℕ) : ℤ)
        ≤ ((Int.fdiv budget surveyCostPerSite).toNat : ℤ) := by
          exact_mod_cast min_le_left _ _
      _ = Int.fdiv budget surveyCostPerSite := Int.toNat_of_nonneg hdiv
  · have hlen :
        (sortDescBy (fun (d : TransitionEvolution) => d.latestFlow)
          (transitionTrends.filter
            (fun d => decide (d.cpri < 0.45)))).length
        = (transitionTrends.filter
            (fun d => decide (d.cpri < 0.45))).length := by
      unfold sortDescBy
      exact length_sortByLt _ _
    rw [← hlen]
    omega

/-- Candidate evolution with low cpri used in the budget counterexamples. -/
def lowEvoA : TransitionEvolution :=
  ⟨"Forest → Built-up", [], 0, 2, "Stable", "#64748B", 1, "Normal",
    "#64748B", true, 0, 0.2, "Field Validation", "#EF4444"⟩

/-- Second candidate evolution with low cpri. -/
def lowEvoB : TransitionEvolution :=
  ⟨"Water Body → Barren", [], 0, 1, "Stable", "#64748B", 1, "Normal",
    "#64748B", true, 0, 0.3, "Field Validation", "#EF4444"⟩

/-- Counterexample to claim C4 as stated: with two candidates and the
negative budget -1200, maxSites is -1 and slice(0,-1) selects one site, so
selected.length is not bounded by floor(budget/costPerSite). -/
theorem claim_C4_counterexample :
    ¬ (((getBudgetOptimizedSurveys (-1200) [lowEvoA, lowEvoB]).selected.length
          : ℤ) ≤ Int.fdiv (-1200) surveyCostPerSite) := by
  have hfd : Int.fdiv (-1200) surveyCostPerSite = -1 := by
    rw [surveyCostPerSite]
    decide
  have hsel :
      (getBudgetOptimizedSurveys (-1200) [lowEvoA, lowEvoB]).selected.length
        = 1 := by
    norm_num [getBudgetOptimizedSurveys, jsSliceTo, jsSliceFrom, hfd,
      lowEvoA, lowEvoB, sortDescBy, sortByLt, insertBy, List.filter]
  rw [hsel, hfd]
  norm_num

/-- Claim C5, amended: a zero budget (and more generally any nonnegative
budget below the per-site cost) yields an empty selection.  A negative
budget value never reaches the optimizer because the budget input is
clamped with Math.max(0, parseInt(...)); applied directly to a negative
budget the raw function instead keeps all but the last few candidates, see
the counterexample. -/
theorem claim_C5_zero_budget_empty
    (transitionTrends : List TransitionEvolution) (budget : ℤ)
    (h0 : 0 ≤ budget) (h1 : budget < surveyCostPerSite) :
    (getBudgetOptimizedSurveys budget transitionTrends).selected = [] := by
  have hfd : Int.fdiv budget surveyCostPerSite = 0 := by
    rw [Int.fdiv_eq_ediv _ (by norm_num [surveyCostPerSite])]
    exact Int.ediv_eq_zero_of_lt h0 h1
  simp [getBudgetOptimizedSurveys, jsSliceTo, hfd]

/-- Witness for the amended claim C5 at budget zero. -/
theorem claim_C5_witness :
    (getBudgetOptimizedSurveys 0 [lowEvoA, lowEvoB]).selected = [] :=
  claim_C5_zero_budget_empty [lowEvoA, lowEvoB] 0 (by norm_num)
    (by norm_num [surveyCostPerSite])

/-- Counterexample to claim C5 as stated: at the negative budget -1200 with
two candidates the selection is not empty (JS slice keeps one element). -/
theorem claim_C5_counterexample :
    (getBudgetOptimizedSurveys (-1200) [lowEvoA, lowEvoB]).selected ≠ [] := by
  have hfd : Int.fdiv (-1200) surveyCostPerSite = -1 := by
    rw [surveyCostPerSite]
    decide
  norm_num [getBudgetOptimizedSurveys, jsSliceTo, jsSliceFrom, hfd,
    lowEvoA, lowEvoB, sortDescBy, sortByLt, insertBy, List.filter]

/-- Witness for the amended claim C4 at a concrete positive budget. -/
theorem claim_C4_witness :
    (((getBudgetOptimizedSurveys 2400 [lowEvoA, lowEvoB]).selected.length : ℤ)
        ≤ Int.fdiv 2400 surveyCostPerSite) ∧
    (getBudgetOptimizedSurveys 2400 [lowEvoA, lowEvoB]).selected.length
        + (getBudgetOptimizedSurveys 2400 [lowEvoA, lowEvoB]).deferredCount
      = ([lowEvoA, lowEvoB].filter
          (fun d => decide (d.cpri < 0.45))).length ∧
    (getBudgetOptimizedSurveys 2400 [lowEvoA, lowEvoB]).totalCost
      = ((getBudgetOptimizedSurveys 2400
            [lowEvoA, lowEvoB]).selected.length : ℤ) * surveyCostPerSite :=
  ⟨(claim_C4_allocation_identities [lowEvoA, lowEvoB] 2400).1 (by norm_num),
   (claim_C4_allocation_identities [lowEvoA, lowEvoB] 2400).2.1,
   (claim_C4_allocation_identities [lowEvoA, lowEvoB] 2400).2.2⟩

/-! ## ProjectionSimulator (getFutureProjection) -/

structure FutureProjection where
  targetYear : ℚ
  projectedArea : ℚ
  increase : ℚ
  riskLevel : String
  color : String
  reduction : Option ℚ
  savedArea : Option ℚ
deriving DecidableEq, Repr

/-- The future projection engine.  Year values from the CSV coerce to
numbers in every arithmetic use, so years are taken numerically here. -/
def getFutureProjection (years : List ℚ) (builtUpTrend : List ℚ)
    (policyIntensity : ℚ) : Option FutureProjection :=
  if years.length < 3 then none else
  let lastIdx := years.length - 1
  let startIdx := years.length - 3
  let timeSpan := years.getD lastIdx 0 - years.getD startIdx 0
  let urbanChange := builtUpTrend.getD lastIdx 0 - builtUpTrend.getD startIdx 0
  let reduction := (policyIntensity / 100) * 0.60
  let annualRate := (urbanChange / timeSpan) * (1 - reduction)
  let yearsToProject : ℚ := 2
  let projectedUrban := builtUpTrend.getD lastIdx 0 + annualRate * yearsToProject
  let projectedIncrease := projectedUrban - builtUpTrend.getD lastIdx 0
  some
    { targetYear := years.getD lastIdx 0 + yearsToProject
      projectedArea := round1 projectedUrban
      increase := round1 projectedIncrease
      riskLevel :=
        if 10 < projectedIncrease then "Critical 🚨"
        else if 5 < projectedIncrease then "High ⚠️" else "Low"
      color :=
        if 10 < projectedIncrease then "#EF4444"
        else if 5 < projectedIncrease then "#F59E0B" else "#10B981"
      reduction := if 0 < reduction then some (round0 (reduction * 100)) else none
      savedArea :=
        if 0 < reduction then
          some (round1 ((urbanChange / timeSpan * yearsToProject)
            - projectedIncrease))
        else none }

/-- The unmitigated baseline projection, stated from the specification text:
the raw last-3-years annual rate with no reduction applied, projected two
years forward, with no savedArea reported.  Used as the comparison object
for the intensity-zero refinement claim. -/
def unmitigatedProjection (years : List ℚ) (builtUpTrend : List ℚ) :
    Option FutureProjection :=
  if years.length < 3 then none else
  let lastIdx := years.length - 1
  let startIdx := years.length - 3
  let timeSpan := years.getD lastIdx 0 - years.getD startIdx 0
  let rawRate := (builtUpTrend.getD lastIdx 0 - builtUpTrend.getD startIdx 0)
    / timeSpan
  let projectedUrban := builtUpTrend.getD lastIdx 0 + rawRate * 2
  let projectedIncrease := projectedUrban - builtUpTrend.getD lastIdx 0
  some
    { targetYear := years.getD lastIdx 0 + 2
      projectedArea := round1 projectedUrban
      increase := round1 projectedIncrease
      riskLevel :=
        if 10 < projectedIncrease then "Critical 🚨"
        else if 5 < projectedIncrease then "High ⚠️" else "Low"
      color :=
        if 10 < projectedIncrease then "#EF4444"
        else if 5 < projectedIncrease then "#F59E0B" else "#10B981"
      reduction := none
      savedArea := none }

/-- Claim C3: with policy intensity 0 the simulator returns exactly the
unmitigated baseline projection (the rate is not reduced, projected area
and increase come from the raw last-3-years rate) and savedArea is absent. -/
theorem claim_C3_intensity_zero_is_baseline (years builtUpTrend : List ℚ)
    (h3 : 3 ≤ years.length) :
    getFutureProjection years builtUpTrend 0
        = unmitigatedProjection years builtUpTrend ∧
    ∀ p, getFutureProjection years builtUpTrend 0 = some p →
      p.savedArea = none := by
  have hred : ((0 : ℚ) / 100) * 0.60 = 0 := by norm_num
  have heq : getFutureProjection years builtUpTrend 0
      = unmitigatedProjection years builtUpTrend := by
    rw [getFutureProjection, unmitigatedProjection,
      if_neg (not_lt.mpr h3), if_neg (not_lt.mpr h3)]
    norm_num
  refine ⟨heq, ?_⟩
  intro p hp
  rw [heq, unmitigatedProjection, if_neg (not_lt.mpr h3)] at hp
  cases Option.some.injEq .. ▸ hp
  simp

/-- Witness for claim C3 at a concrete three-year series. -/
theorem claim_C3_witness :
    getFutureProjection [2020, 2022, 2024] [10, 12, 16] 0
        = unmitigatedProjection [2020, 2022, 2024] [10, 12, 16] ∧
    ∀ p, getFutureProjection [2020, 2022, 2024] [10, 12, 16] 0 = some p →
      p.savedArea = none :=
  claim_C3_intensity_zero_is_baseline [2020, 2022, 2024] [10, 12, 16]
    (by norm_num)

/-! ## VelocityAnalyzer (getVelocityMetrics) -/

structure VelocityMetrics where
  velocity : ℚ
  acceleration : ℚ
  status : String
  color : String
deriving DecidableEq, Repr

/-- Velocity and acceleration metrics of a trend series.  With fewer than
three points the source returns the literal object velocity 0,
acceleration 0, status Stable (numeric zeros); with three or more points
the numeric fields are toFixed strings whose numeric values we store. -/
def getVelocityMetrics (trendValues : List ℚ) (years : List ℚ) :
    VelocityMetrics :=
  if trendValues.length < 3 then ⟨0, 0, "Stable", "#6B7280"⟩ else
  let n := trendValues.length
  let currentArea := trendValues.getD (n - 1) 0
  let prevArea := trendValues.getD (n - 2) 0
  let prev2Area := trendValues.getD (n - 3) 0
  let currentYear := years.getD (n - 1) 0
  let prevYear := years.getD (n - 2) 0
  let prev2Year := years.getD (n - 3) 0
  let vCurrent := (currentArea - prevArea) / (currentYear - prevYear)
  let vPrev := (prevArea - prev2Area) / (prevYear - prev2Year)
  let acceleration := vCurrent - vPrev
  let sc : String × String :=
    if 0.5 < acceleration then ("Rapid Acceleration 🚀", "#EF4444")
    else if 0 < acceleration then ("Accelerating 📈", "#F59E0B")
    else if acceleration < -0.5 then ("Rapid Deceleration 📉", "#10B981")
    else if acceleration < 0 then ("Decelerating 🐢", "#3B82F6")
    else ("Stable", "#6B7280")
  ⟨round1 vCurrent, round2 acceleration, sc.1, sc.2⟩

/-- Claim C10: a trend with fewer than three points yields the fixed
sentinel velocity 0, acceleration 0, status Stable, and this result is
indistinguishable (field by field, at the numeric level) from the result on
a genuine flat trend with three points, whose computed velocity and
acceleration are zero and whose status is also Stable. -/
theorem claim_C10_velocity_sentinel :
    (∀ trendValues years : List ℚ, trendValues.length < 3 →
      getVelocityMetrics trendValues years = ⟨0, 0, "Stable", "#6B7280"⟩) ∧
    getVelocityMetrics [5, 5, 5] [2020, 2022, 2024]
      = ⟨0, 0, "Stable", "#6B7280"⟩ := by
  constructor
  · intro trendValues years h
    rw [getVelocityMetrics, if_pos h]
  · rw [getVelocityMetrics]
    norm_num [List.getD, round1, round2]

/-- Witness for claim C10 on a two-point series. -/
theorem claim_C10_witness :
    getVelocityMetrics [1, 2] [2018, 2020] = ⟨0, 0, "Stable", "#6B7280"⟩ :=
  claim_C10_velocity_sentinel.1 [1, 2] [2018, 2020] (by norm_num)

/-! ## TrendExtractor (years, builtUpTrend, forestTrend, waterTrend)

Rows of the lulc_timeseries.csv table.  The CSV parser delivers every field
as a string; numeric fields are parsed with parseFloat at each use and the
spec assumes well-typed numerics, so area and confidence are rationals
here, while the year keeps its raw string form because the year list is
sorted with the default JS comparator, which compares strings. -/

structure TimeSeriesPoint where
  year : String
  lulc_class : String
  area_sq_km : ℚ
  confidence : ℚ
deriving DecidableEq, Repr

/-- Distinct years in first-occurrence order ([...new Set(...)]) sorted by
the default JS sort comparator, i.e. lexicographically on the string
representation (for digit strings the UTF-16 code-unit comparison of JS
agrees with the character comparison used here). -/
def yearsOf (timeData : List TimeSeriesPoint) : List String :=
  sortAscBy (fun (y : String) => y)
    (insertionKeys (fun d => d.year) timeData)

/-- The per-class yearly trend: for each year in order, the area of the
matching record, or 0 when the (year, class) pair is absent. -/
def trendFor (cls : String) (timeData : List TimeSeriesPoint) : List ℚ :=
  (yearsOf timeData).map (fun y =>
    match timeData.find? (fun d => d.year == y && d.lulc_class == cls) with
    | some r => r.area_sq_km
    | none => 0)

/-! ## EcoRiskAssessor (getEcoRiskAssessment) -/

structure EcoRiskAssessment where
  lossArea : ℚ
  trend : String
  icon : String
  color : String
  forestLossPct : ℚ
  waterLossPct : ℚ
deriving DecidableEq, Repr

/-- The ecological trajectory engine.  The closure free variables years,
forestTrend and waterTrend appear as parameters. -/
def getEcoRiskAssessment (years : List String)
    (forestTrend waterTrend : List ℚ) : Option EcoRiskAssessment :=
  if years.length < 2 then none else
  let baselineForest := forestTrend.headD 0
  let currentForest := forestTrend.getD (forestTrend.length - 1) 0
  let forestLoss := baselineForest - currentForest
  let forestLossPct :=
    if 0 < baselineForest then (forestLoss / baselineForest) * 100 else 0
  let baselineWater := waterTrend.headD 0
  let currentWater := waterTrend.getD (waterTrend.length - 1) 0
  let waterLoss := baselineWater - currentWater
  let waterLossPct :=
    if 0 < baselineWater then (waterLoss / baselineWater) * 100 else 0
  let totalEcoLoss := forestLoss + waterLoss
  let tic : String × String × String :=
    if 20 < totalEcoLoss then ("Rapid Degradation", "📉", "#EF4444")
    else if 5 < totalEcoLoss then ("Declining", "⚠️", "#F59E0B")
    else if totalEcoLoss < -1 then ("Recovering", "🌱", "#3B82F6")
    else ("Stable", "⚖️", "#10B981")
  some
    { lossArea := round1 totalEcoLoss
      trend := tic.1
      icon := tic.2.1
      color := tic.2.2
      forestLossPct := round1 forestLossPct
      waterLossPct := round1 waterLossPct }

/-- The assessor as wired in the component: years and trends derived from
the time-series table (the water class of the time series is "Water"). -/
def ecoRisk (timeData : List TimeSeriesPoint) : Option EcoRiskAssessment :=
  getEcoRiskAssessment (yearsOf timeData) (trendFor "Forest" timeData)
    (trendFor "Water" timeData)

/-- Classification of the total ecological loss by the thresholds the claim
states, used as the comparison object for the trend field. -/
def ecoTrendClass (totalEcoLoss : ℚ) : String :=
  if 20 < totalEcoLoss then "Rapid Degradation"
  else if 5 < totalEcoLoss then "Declining"
  else if totalEcoLoss < -1 then "Recovering" else "Stable"

/-- Total ecological loss of a table: baseline minus current for Forest
plus the same for Water, as the claim defines it. -/
def totalEcoLossOf (timeData : List TimeSeriesPoint) : ℚ :=
  let f := trendFor "Forest" timeData
  let w := trendFor "Water" timeData
  (f.headD 0 - f.getD (f.length - 1) 0) + (w.headD 0 - w.getD (w.length - 1) 0)

/-- Table realizing a total ecological loss of 25. -/
def ecoTable25 : List TimeSeriesPoint :=
  [⟨"2018", "Forest", 30, 0.9⟩, ⟨"2018", "Water", 10, 0.9⟩,
   ⟨"2024", "Forest", 10, 0.9⟩, ⟨"2024", "Water", 5, 0.9⟩]

/-- Table realizing a total ecological loss of 10. -/
def ecoTable10 : List TimeSeriesPoint :=
  [⟨"2018", "Forest", 10, 0.9⟩, ⟨"2018", "Water", 10, 0.9⟩,
   ⟨"2024", "Forest", 5, 0.9⟩, ⟨"2024", "Water", 5, 0.9⟩]

/-- Table realizing a total ecological loss of -2. -/
def ecoTableNeg2 : List TimeSeriesPoint :=
  [⟨"2018", "Forest", 10, 0.9⟩, ⟨"2018", "Water", 10, 0.9⟩,
   ⟨"2024", "Forest", 11, 0.9⟩, ⟨"2024", "Water", 11, 0.9⟩]

/-- Table realizing a total ecological loss of 0. -/
def ecoTable0 : List TimeSeriesPoint :=
  [⟨"2018", "Forest", 10, 0.9⟩, ⟨"2018", "Water", 10, 0.9⟩,
   ⟨"2024", "Forest", 10, 0.9⟩, ⟨"2024", "Water", 10, 0.9⟩]

theorem decide_year_lt_false :
    (decide (("2024" : String) < "2018")) = false := by
  rw [decide_eq_false_iff_not, String.lt_iff_toList_lt]
  decide

theorem year_charlist_lt_false :
    ((['2', '0', '2', '4'] : List Char) < ['2', '0', '1', '8']) = False := by
  simp only [eq_iff_iff, iff_false]
  decide

theorem beq_year_false : (("2018" : String) == "2024") = false := by decide

theorem beq_wf_false : (("Water" : String) == "Forest") = false := by decide

theorem beq_fw_false : (("Forest" : String) == "Water") = false := by decide

/-- Claim C7: the assessor returns the null sentinel exactly when there are
fewer than 2 distinct years; otherwise the trend field is the
classification of totalEcoLoss (baseline minus current, Forest plus Water)
by the thresholds 20, 5, -1, illustrated at losses 25, 10, -2 and 0; and a
zero forest baseline yields a zero forest loss percentage. -/
theorem claim_C7_eco_risk_assessor :
    (∀ timeData, ecoRisk timeData = none ↔ (yearsOf timeData).length < 2) ∧
    (∀ timeData r, ecoRisk timeData = some r →
      r.trend = ecoTrendClass (totalEcoLossOf timeData)) ∧
    (totalEcoLossOf ecoTable25 = 25 ∧
      (ecoRisk ecoTable25).map (fun r => r.trend)
        = some "Rapid Degradation") ∧
    (totalEcoLossOf ecoTable10 = 10 ∧
      (ecoRisk ecoTable10).map (fun r => r.trend) = some "Declining") ∧
    (totalEcoLossOf ecoTableNeg2 = -2 ∧
      (ecoRisk ecoTableNeg2).map (fun r => r.trend) = some "Recovering") ∧
    (totalEcoLossOf ecoTable0 = 0 ∧
      (ecoRisk ecoTable0).map (fun r => r.trend) = some "Stable") ∧
    (∀ timeData r, ecoRisk timeData = some r →
      (trendFor "Forest" timeData).headD 0 = 0 → r.forestLossPct = 0) := by
  have hnone : ∀ timeData,
      ecoRisk timeData = none ↔ (yearsOf timeData).length < 2 := by
    intro timeData
    rw [ecoRisk, getEcoRiskAssessment]
    by_cases h : (yearsOf timeData).length < 2
    · simp [h]
    · simp [h]
  have htrend : ∀ timeData r, ecoRisk timeData = some r →
      r.trend = ecoTrendClass (totalEcoLossOf timeData) := by
    intro timeData r hr
    rw [ecoRisk, getEcoRiskAssessment] at hr
    by_cases h : (yearsOf timeData).length < 2
    · rw [if_pos h] at hr; exact absurd hr (by simp)
    · rw [if_neg h] at hr
      have := (Option.some.injEq _ _).mp hr
      rw [← this]
      rw [ecoTrendClass, totalEcoLossOf]
      split_ifs <;> rfl
  have hpct : ∀ timeData r, ecoRisk timeData = some r →
      (trendFor "Forest" timeData).headD 0 = 0 → r.forestLossPct = 0 := by
    intro timeData r hr h0
    rw [ecoRisk, getEcoRiskAssessment] at hr
    by_cases h : (yearsOf timeData).length < 2
    · rw [if_pos h] at hr; exact absurd hr (by simp)
    · rw [if_neg h] at hr
      have := (Option.some.injEq _ _).mp hr
      rw [← this]
      show round1 (if 0 < (trendFor "Forest" timeData).headD 0 then _ else 0)
        = 0
      rw [h0, if_neg (lt_irrefl 0)]
      norm_num [round1]
  refine ⟨hnone, htrend, ?_, ?_, ?_, ?_, hpct⟩ <;>
    constructor <;>
    norm_num [ecoRisk, getEcoRiskAssessment, totalEcoLossOf, trendFor,
      yearsOf, insertionKeys, sortAscBy, sortByLt, insertBy,
      decide_year_lt_false, year_charlist_lt_false, beq_year_false,
      beq_wf_false, beq_fw_false, List.find?,
      ecoTable25, ecoTable10, ecoTableNeg2, ecoTable0]

theorem pairwise_insertBy_asc [LinearOrder β] (key : α → β) (x : α) :
    ∀ {l : List α}, l.Pairwise (fun a b => key a ≤ key b) →
      (insertBy (fun y x => decide (key y < key x)) x l).Pairwise
        (fun a b => key a ≤ key b) := by
  intro l
  induction l with
  | nil => intro _; simp [insertBy]
  | cons y ys ih =>
    intro hp
    rcases List.pairwise_cons.mp hp with ⟨hy, hys⟩
    by_cases h : key y < key x
    · rw [insertBy, if_pos (by simpa using h)]
      refine List.pairwise_cons.mpr ⟨?_, ih hys⟩
      intro z hz
      rcases List.mem_cons.mp ((perm_insertBy _ x ys).mem_iff.mp hz) with
        rfl | hz
      · exact le_of_lt h
      · exact hy z hz
    · rw [insertBy, if_neg (by simpa using h)]
      refine List.pairwise_cons.mpr ⟨?_, hp⟩
      intro z hz
      rcases List.mem_cons.mp hz with rfl | hz
      · exact le_of_not_lt h
      · exact (le_of_not_lt h).trans (hy z hz)

theorem pairwise_sortAscBy [LinearOrder β] (key : α → β) (l : List α) :
    (sortAscBy key l).Pairwise (fun a b => key a ≤ key b) := by
  induction l with
  | nil => simp [sortAscBy, sortByLt]
  | cons x xs ih => exact pairwise_insertBy_asc key x ih

theorem subset_insertionKeys_foldl [DecidableEq β] (f : α → β) :
    ∀ (l : List α) (acc : List β),
      acc ⊆ l.foldl (fun ks d => if f d ∈ ks then ks else ks ++ [f d]) acc := by
  intro l
  induction l with
  | nil => intro acc; exact fun b hb => hb
  | cons x xs ih =>
    intro acc
    rw [List.foldl_cons]
    refine List.Subset.trans ?_ (ih _)
    by_cases hx : f x ∈ acc
    · rw [if_pos hx]
      exact fun b hb => hb
    · rw [if_neg hx]
      exact List.subset_append_left _ _

theorem mem_insertionKeys_of_mem [DecidableEq β] {f : α → β} {l : List α}
    {a : α} (ha : a ∈ l) : f a ∈ insertionKeys f l := by
  have key : ∀ (l : List α) (acc : List β), a ∈ l →
      f a ∈ l.foldl (fun ks d => if f d ∈ ks then ks else ks ++ [f d]) acc := by
    intro l
    induction l with
    | nil => intro acc h; exact absurd h (List.not_mem_nil a)
    | cons x xs ih =>
      intro acc h
      rw [List.foldl_cons]
      rcases List.mem_cons.mp h with rfl | h
      · refine subset_insertionKeys_foldl f xs _ ?_
        by_cases hx : f a ∈ acc
        · rw [if_pos hx]; exact hx
        · rw [if_neg hx]; exact List.mem_append_right _ (by simp)
      · exact ih _ h
  exact key l [] ha

theorem nodup_insertionKeys [DecidableEq β] (f : α → β) (l : List α) :
    (insertionKeys f l).Nodup := by
  have key : ∀ (l : List α) (acc : List β), acc.Nodup →
      (l.foldl (fun ks d => if f d ∈ ks then ks else ks ++ [f d]) acc).Nodup := by
    intro l
    induction l with
    | nil => intro acc h; exact h
    | cons x xs ih =>
      intro acc h
      rw [List.foldl_cons]
      refine ih _ ?_
      by_cases hx : f x ∈ acc
      · rw [if_pos hx]; exact h
      · rw [if_neg hx]
        rw [List.nodup_append]
        exact ⟨h, List.nodup_singleton _, by simpa using hx⟩
  exact key l [] List.nodup_nil

/-- Part of the year axis the specification describes: the distinct years
sorted ascending under numeric comparison of the raw year values.  Stated
from the specification text as the comparison object for the sorting
claim; digit strings are compared by their parsed numeric value. -/
def digitsToNat (l : List Char) : ℕ :=
  l.foldl (fun n c => 10 * n + (c.toNat - 48)) 0

def yearNumValue (y : String) : ℕ := digitsToNat y.data

def yearsNumericSpec (timeData : List TimeSeriesPoint) : List String :=
  sortAscBy yearNumValue (insertionKeys (fun d => d.year) timeData)

/-- Table whose years are the digit strings 9 and 10 (single- and
two-digit years), where lexicographic and numeric order disagree. -/
def miniTable : List TimeSeriesPoint :=
  [⟨"9", "Built-up", 3, 0.9⟩, ⟨"10", "Built-up", 7, 0.9⟩]

/-- Counterexample to claim C6 as stated: the source sorts the distinct
years with the default JS comparator, i.e. lexicographically on strings,
not numerically.  On years 9 and 10 the code produces the year axis
[10, 9] and the aligned trend [7, 3], while numeric ascending order is
[9, 10]. -/
theorem claim_C6_counterexample :
    yearsOf miniTable = ["10", "9"] ∧
    yearsNumericSpec miniTable = ["9", "10"] ∧
    yearsOf miniTable ≠ yearsNumericSpec miniTable ∧
    trendFor "Built-up" miniTable = [7, 3] := by
  have h10lt9 : ((['1', '0'] : List Char) < ['9']) = True :=
    eq_true (by decide)
  have hbeq910 : (("9" : String) == "10") = false := by decide
  have h9 : yearNumValue "9" = 9 := by decide
  have h10 : yearNumValue "10" = 10 := by decide
  have hyears : yearsOf miniTable = ["10", "9"] := by
    simp [yearsOf, insertionKeys, miniTable, sortAscBy, sortByLt, insertBy,
      h10lt9]
  refine ⟨hyears, ?_, ?_, ?_⟩
  · simp [yearsNumericSpec, insertionKeys, miniTable, sortAscBy, sortByLt,
      insertBy, h9, h10]
  · intro h
    rw [hyears] at h
    have h2 : yearsNumericSpec miniTable = ["9", "10"] := by
      simp [yearsNumericSpec, insertionKeys, miniTable, sortAscBy, sortByLt,
        insertBy, h9, h10]
    rw [h2] at h
    exact absurd (List.head_eq_of_cons_eq h) (by decide)
  · rw [trendFor, hyears]
    simp [miniTable, List.find?, hbeq910]

/-- Claim C6, amended: the year axis is the deduplicated set of years of
the table sorted ascending lexicographically on the raw string value (for
strings this is the default JS comparator; it agrees with numeric order
exactly when the digit strings have equal length, e.g. four-digit years),
and the per-class trend is aligned to it with a defined default of 0 for
every absent (year, class) pair. -/
theorem claim_C6_trend_extractor_amended (cls : String)
    (timeData : List TimeSeriesPoint) :
    (yearsOf timeData).Pairwise (fun a b => a ≤ b) ∧
    (yearsOf timeData).Nodup ∧
    (∀ y, y ∈ yearsOf timeData ↔ ∃ d ∈ timeData, d.year = y) ∧
    (trendFor cls timeData).length = (yearsOf timeData).length ∧
    (∀ (i : ℕ) (y : String), (yearsOf timeData)[i]? = some y →
      (∀ d ∈ timeData, ¬ (d.year = y ∧ d.lulc_class = cls)) →
      (trendFor cls timeData)[i]? = some 0) ∧
    (∀ (i : ℕ) (y : String) (r : TimeSeriesPoint),
      (yearsOf timeData)[i]? = some y →
      timeData.find? (fun d => d.year == y && d.lulc_class == cls) = some r →
      (trendFor cls timeData)[i]? = some r.area_sq_km) := by
  refine ⟨?_, ?_, ?_, ?_, ?_, ?_⟩
  · exact pairwise_sortAscBy (fun (y : String) => y) _
  · rw [yearsOf, sortAscBy]
    exact (perm_sortByLt _ _).nodup_iff.mpr
      (nodup_insertionKeys (fun d => d.year) timeData)
  · intro y
    rw [yearsOf, sortAscBy, mem_sortByLt]
    constructor
    · intro hy
      rcases mem_insertionKeys hy with ⟨d, hd, hfd⟩
      exact ⟨d, hd, hfd⟩
    · rintro ⟨d, hd, rfl⟩
      exact mem_insertionKeys_of_mem hd
  · rw [trendFor, List.length_map]
  · intro i y hy habs
    rw [trendFor, List.getElem?_map, hy]
    have hfind :
        timeData.find? (fun d => d.year == y && d.lulc_class == cls)
          = none := by
      rw [List.find?_eq_none]
      intro d hd
      have := habs d hd
      simp only [Bool.and_eq_true, beq_iff_eq]
      intro hcontra
      exact this hcontra
    simp [hfind]
  · intro i y r hy hfind
    rw [trendFor, List.getElem?_map, hy]
    simp [hfind]

/-- Witness for the amended claim C6: the absent-pair conjunct applied at a
concrete one-row table and a class absent from it. -/
theorem claim_C6_witness :
    (trendFor "Built-up"
      [({ year := "2018", lulc_class := "Forest", area_sq_km := 5,
          confidence := 0.9 } : TimeSeriesPoint)])[0]? = some 0 :=
  (claim_C6_trend_extractor_amended "Built-up"
      [{ year := "2018", lulc_class := "Forest", area_sq_km := 5,
         confidence := 0.9 }]).2.2.2.2.1 0 "2018"
    (by simp [yearsOf, insertionKeys, sortAscBy, sortByLt, insertBy])
    (by
      intro d hd
      rcases List.mem_singleton.mp hd with rfl
      intro hcontra
      exact absurd hcontra.2 (by decide))

/-- Table with a zero forest baseline, for the C7 witness. -/
def ecoTableZeroForest : List TimeSeriesPoint :=
  [⟨"2018", "Forest", 0, 0.9⟩, ⟨"2018", "Water", 10, 0.9⟩,
   ⟨"2024", "Forest", 2, 0.9⟩, ⟨"2024", "Water", 4, 0.9⟩]

/-- The assessment value produced on the zero-forest-baseline table. -/
def ecoValZeroForest : EcoRiskAssessment :=
  ⟨4, "Stable", "⚖️", "#10B981", 0, 60⟩

/-- Witness for claim C7: the zero-baseline conjunct applied at a concrete
table whose forest baseline is zero. -/
theorem claim_C7_witness : ecoValZeroForest.forestLossPct = 0 :=
  claim_C7_eco_risk_assessor.2.2.2.2.2.2 ecoTableZeroForest ecoValZeroForest
    (by
      norm_num [ecoRisk, getEcoRiskAssessment, trendFor, yearsOf,
        insertionKeys, sortAscBy, sortByLt, insertBy, decide_year_lt_false,
        year_charlist_lt_false, beq_year_false, beq_wf_false, beq_fw_false,
        List.find?, ecoTableZeroForest, ecoValZeroForest, round1])
    (by
      norm_num [trendFor, yearsOf, insertionKeys, sortAscBy, sortByLt,
        insertBy, decide_year_lt_false, year_charlist_lt_false,
        beq_year_false, beq_wf_false, beq_fw_false, List.find?,
        ecoTableZeroForest])

/-! ## GovernanceAlertEngine (generateGovernanceAlerts)

Transition records as parsed from transition_data.csv.  The water origin
class is spelled "Water Body" in the transition table (the time series
spells its water class "Water").  Numeric fields are well-typed rationals
per the ingestion assumption. -/

structure TransitionRecord where
  year : String
  fromClass : String
  toClass : String
  area_sq_km : ℚ
  confidence : ℚ
deriving DecidableEq, Repr

/-- An emitted alert.  The type field is the severity (high, medium, low).
The presentational desc string (whose text no claim references) is not
carried; title, severity, icon and the triggering records are. -/
structure Alert where
  type : String
  title : String
  icon : String
  items : List TransitionRecord
deriving DecidableEq, Repr

/-- Rule-1 filter: origin Forest or Water Body, destination Built-up or
Barren, confidence above 0.80. -/
def ecoRiskPred (d : TransitionRecord) : Bool :=
  (d.fromClass == "Forest" || d.fromClass == "Water Body") &&
  ((d.toClass == "Built-up" || d.toClass == "Barren") &&
    decide ((0.80 : ℚ) < d.confidence))

/-- Rule-1 title, persona phrased. -/
def ecoTitle (activePersona : String) : String :=
  if activePersona == "environmental_officer" then "Critical Ecosystem Loss"
  else "Ecological Risk"

/-- The four governance alert rules, accumulated in order. -/
def generateGovernanceAlerts (activePersona : String)
    (data : List TransitionRecord) (trendsBuiltUp trendsYears : List ℚ) :
    List Alert :=
  let ecoRiskItems := data.filter ecoRiskPred
  let rule1 : List Alert :=
    if 0 < ecoRiskItems.length then
      [{ type := "high", title := ecoTitle activePersona, icon := "🛑",
         items := ecoRiskItems }]
    else []
  let urbanSprawl := data.filter
    (fun d => d.fromClass == "Agriculture" && d.toClass == "Built-up")
  let totalSprawlArea : ℚ :=
    urbanSprawl.foldl (fun s d => s + d.area_sq_km) 0
  let rule2 : List Alert :=
    if 5 < totalSprawlArea then
      [{ type := "medium",
         title := if activePersona == "urban_planner"
           then "Unplanned Sprawl Detected" else "Urban Sprawl Alert",
         icon := "🏗️", items := urbanSprawl }]
    else []
  let lowConfChanges := data.filter (fun d => decide (d.confidence < 0.60))
  let rule3 : List Alert :=
    if 2 < lowConfChanges.length then
      [{ type := "low", title := "Data Gap Identified", icon := "📡",
         items := lowConfChanges }]
    else []
  let rule4 : List Alert :=
    if 4 ≤ trendsBuiltUp.length then
      let n := trendsBuiltUp.length
      let baselineRate :=
        (trendsBuiltUp.getD (n - 2) 0 - trendsBuiltUp.getD 0 0)
          / (trendsYears.getD (n - 2) 0 - trendsYears.getD 0 0)
      let recentRate :=
        (trendsBuiltUp.getD (n - 1) 0 - trendsBuiltUp.getD (n - 2) 0)
          / (trendsYears.getD (n - 1) 0 - trendsYears.getD (n - 2) 0)
      let bdi := if baselineRate ≠ 0 then recentRate / baselineRate else 0
      if 1.5 < bdi then
        [{ type := "high", title := "Abnormal Growth Spike", icon := "⚡",
           items := [] }]
      else if 1.2 < bdi then
        [{ type := "medium", title := "Growth Acceleration", icon := "📈",
           items := [] }]
      else []
    else []
  rule1 ++ rule2 ++ rule3 ++ rule4

/-- Any alert carrying the rule-1 title comes from rule 1: the candidate
list was nonempty and the alert is exactly the rule-1 alert. -/
theorem eco_alert_characterization {activePersona : String}
    {data : List TransitionRecord} {trendsBuiltUp trendsYears : List ℚ}
    {a : Alert}
    (ha : a ∈ generateGovernanceAlerts activePersona data trendsBuiltUp
      trendsYears)
    (ht : a.title = ecoTitle activePersona) :
    0 < (data.filter ecoRiskPred).length ∧
    a = { type := "high", title := ecoTitle activePersona, icon := "🛑",
          items := data.filter ecoRiskPred } := by
  have hne1 : ¬ ("Unplanned Sprawl Detected" = ecoTitle activePersona) := by
    rw [ecoTitle]; split <;> decide
  have hne2 : ¬ ("Urban Sprawl Alert" = ecoTitle activePersona) := by
    rw [ecoTitle]; split <;> decide
  have hne3 : ¬ ("Data Gap Identified" = ecoTitle activePersona) := by
    rw [ecoTitle]; split <;> decide
  have hne4 : ¬ ("Abnormal Growth Spike" = ecoTitle activePersona) := by
    rw [ecoTitle]; split <;> decide
  have hne5 : ¬ ("Growth Acceleration" = ecoTitle activePersona) := by
    rw [ecoTitle]; split <;> decide
  simp only [generateGovernanceAlerts, List.mem_append] at ha
  rcases ha with ((h1 | h2) | h3) | h4
  · split at h1
    · rcases List.mem_singleton.mp h1 with rfl
      exact ⟨by assumption, rfl⟩
    · exact absurd h1 (List.not_mem_nil a)
  · split at h2
    · rcases List.mem_singleton.mp h2 with rfl
      simp only [] at ht
      split at ht
      · exact absurd ht hne1
      · exact absurd ht hne2
    · exact absurd h2 (List.not_mem_nil a)
  · split at h3
    · rcases List.mem_singleton.mp h3 with rfl
      exact absurd ht hne3
    · exact absurd h3 (List.not_mem_nil a)
  · repeat' split at h4
    all_goals
      try exact absurd h4 (List.not_mem_nil a)
    all_goals
      rcases List.mem_singleton.mp h4 with rfl
    all_goals
      try exact absurd ht hne4
    all_goals
      exact absurd ht hne5

/-- Claim C8: a high-severity ecological-risk alert (the rule-1 title for
the active persona) is emitted exactly when some record has origin Forest
or Water Body (the water class of the transition table), destination
Built-up or Barren, and confidence above 0.80; and that alert lists exactly
the records satisfying this condition. -/
theorem claim_C8_eco_alert_exact (activePersona : String)
    (data : List TransitionRecord) (trendsBuiltUp trendsYears : List ℚ) :
    ((∃ a ∈ generateGovernanceAlerts activePersona data trendsBuiltUp
        trendsYears, a.title = ecoTitle activePersona ∧ a.type = "high") ↔
      ∃ d ∈ data,
        (d.fromClass = "Forest" ∨ d.fromClass = "Water Body") ∧
        (d.toClass = "Built-up" ∨ d.toClass = "Barren") ∧
        (0.80 : ℚ) < d.confidence) ∧
    (∀ a ∈ generateGovernanceAlerts activePersona data trendsBuiltUp
        trendsYears, a.title = ecoTitle activePersona →
      a.type = "high" ∧ a.items = data.filter ecoRiskPred) := by
  have hpred : ∀ d : TransitionRecord, ecoRiskPred d = true ↔
      ((d.fromClass = "Forest" ∨ d.fromClass = "Water Body") ∧
        (d.toClass = "Built-up" ∨ d.toClass = "Barren") ∧
        (0.80 : ℚ) < d.confidence) := by
    intro d
    rw [ecoRiskPred]
    simp [Bool.and_eq_true, Bool.or_eq_true, beq_iff_eq, and_assoc]
  constructor
  · constructor
    · rintro ⟨a, ha, ht, _⟩
      obtain ⟨hlen, _⟩ := eco_alert_characterization ha ht
      obtain ⟨d, hd⟩ := List.exists_mem_of_length_pos hlen
      rcases List.mem_filter.mp hd with ⟨hdd, hpd⟩
      exact ⟨d, hdd, (hpred d).mp hpd⟩
    · rintro ⟨d, hd, hprop⟩
      have hmem : d ∈ data.filter ecoRiskPred :=
        List.mem_filter.mpr ⟨hd, (hpred d).mpr hprop⟩
      have hlen : 0 < (data.filter ecoRiskPred).length :=
        List.length_pos.mpr (by intro h0; rw [h0] at hmem; simp at hmem)
      refine ⟨⟨"high", ecoTitle activePersona, "🛑",
        data.filter ecoRiskPred⟩, ?_, rfl, rfl⟩
      simp only [generateGovernanceAlerts, List.mem_append]
      exact Or.inl (Or.inl (Or.inl (by rw [if_pos hlen]; simp)))
  · intro a ha ht
    obtain ⟨_, rfl⟩ := eco_alert_characterization ha ht
    exact ⟨rfl, rfl⟩

/-- Record triggering the ecological-risk rule in the C8 witness. -/
def demoAlertRecord : TransitionRecord :=
  ⟨"2024", "Forest", "Built-up", 14.2, 0.88⟩

theorem demoAlert_decide_conf :
    (decide ((0.80 : ℚ) < 0.88)) = true := by
  rw [decide_eq_true_eq]; norm_num

theorem demoAlert_decide_low :
    (decide ((0.88 : ℚ) < 0.60)) = false := by
  rw [decide_eq_false_iff_not]; norm_num

theorem demoAlert_sprawl_zero : (((5 : ℚ) < 0)) = False := by
  norm_num

theorem demoAlert_filter :
    [demoAlertRecord].filter ecoRiskPred = [demoAlertRecord] := by
  simp [List.filter, ecoRiskPred, demoAlertRecord, demoAlert_decide_conf]

/-- Witness for claim C8: the exactness conjunct applied to the alert the
engine emits on a one-record table containing a qualifying record. -/
theorem claim_C8_witness :
    (Alert.mk "high" (ecoTitle "policy_maker") "🛑"
        [demoAlertRecord]).type = "high" ∧
    (Alert.mk "high" (ecoTitle "policy_maker") "🛑"
        [demoAlertRecord]).items = [demoAlertRecord].filter ecoRiskPred :=
  (claim_C8_eco_alert_exact "policy_maker" [demoAlertRecord] [] []).2
    ⟨"high", ecoTitle "policy_maker", "🛑", [demoAlertRecord]⟩
    (by
      simp [generateGovernanceAlerts, List.filter, ecoRiskPred,
        demoAlertRecord, demoAlert_decide_conf, demoAlert_decide_low,
        demoAlert_sprawl_zero])
    rfl

/-! ## PriorityRanker (getPolicyWeight, prioritizedData, getRankedData) -/

/-- Persona weight table for a transition (from, to). -/
def getPolicyWeight (activePersona fromCls toCls : String) : ℚ :=
  if activePersona == "environmental_officer" then
    (if fromCls == "Forest" || fromCls == "Water Body" then 3.0 else 1.0)
  else if activePersona == "urban_planner" then
    (if toCls == "Built-up" then 2.0 else 1.0)
  else if fromCls == "Forest" && toCls == "Built-up" then 1.5
  else if fromCls == "Water Body" then 2.0
  else if fromCls == "Agriculture" && toCls == "Built-up" then 1.2
  else 1.0

/-- The confidence and scenario filter applied to the raw records. -/
def filteredData (minConfidence : ℚ) (activeScenario : String)
    (data : List TransitionRecord) : List TransitionRecord :=
  data.filter (fun d =>
    if d.confidence < minConfidence then false
    else if activeScenario == "urban" then d.toClass == "Built-up"
    else if activeScenario == "eco" then
      (d.fromClass == "Forest" || d.fromClass == "Water Body") &&
      (d.toClass == "Built-up" || d.toClass == "Barren")
    else true)

/-- A record extended with its weight and rounded impact score, the object
literal built by the prioritization map. -/
structure ScoredRecord extends TransitionRecord where
  impactScore : ℚ
  weight : ℚ
deriving DecidableEq, Repr

/-- The scoring map: impactScore = area x confidence x weight, toFixed(1). -/
def scoreRecord (activePersona : String) (d : TransitionRecord) :
    ScoredRecord :=
  let weight := getPolicyWeight activePersona d.fromClass d.toClass
  { toTransitionRecord := d
    impactScore := round1 (d.area_sq_km * d.confidence * weight)
    weight := weight }

/-- Filter, score, and rank descending by impact score (stable sort). -/
def prioritizedData (activePersona activeScenario : String)
    (minConfidence : ℚ) (data : List TransitionRecord) :
    List ScoredRecord :=
  sortDescBy (fun (d : ScoredRecord) => d.impactScore)
    ((filteredData minConfidence activeScenario data).map
      (scoreRecord activePersona))

/-- The alternate ranking modes over the prioritized list. -/
def getRankedData (rankMode : String) (pd : List ScoredRecord) :
    List ScoredRecord :=
  if rankMode == "area" then
    sortDescBy (fun (d : ScoredRecord) => d.area_sq_km) pd
  else if rankMode == "confidence" then
    sortDescBy (fun (d : ScoredRecord) => d.confidence) pd
  else pd

/-- The fields of a raw record the ranker reads: origin, destination, area
and confidence.  The year is carried through but never read by filtering,
weighting, scoring or ranking, and stands in for any display-only datum
(per the spec, a display identifier must not affect ranking or logic). -/
structure ScoreView where
  fromClass : String
  toClass : String
  area_sq_km : ℚ
  confidence : ℚ
deriving DecidableEq, Repr

/-- The ranking-relevant fields of a scored record. -/
structure ScoredView where
  fromClass : String
  toClass : String
  area_sq_km : ℚ
  confidence : ℚ
  impactScore : ℚ
  weight : ℚ
deriving DecidableEq, Repr

def scoreView (d : TransitionRecord) : ScoreView :=
  ⟨d.fromClass, d.toClass, d.area_sq_km, d.confidence⟩

def scoredView (s : ScoredRecord) : ScoredView :=
  ⟨s.fromClass, s.toClass, s.area_sq_km, s.confidence, s.impactScore,
    s.weight⟩

def filterView (minConfidence : ℚ) (activeScenario : String)
    (v : ScoreView) : Bool :=
  if v.confidence < minConfidence then false
  else if activeScenario == "urban" then v.toClass == "Built-up"
  else if activeScenario == "eco" then
    (v.fromClass == "Forest" || v.fromClass == "Water Body") &&
    (v.toClass == "Built-up" || v.toClass == "Barren")
  else true

def scoreViewRecord (activePersona : String) (v : ScoreView) : ScoredView :=
  let weight := getPolicyWeight activePersona v.fromClass v.toClass
  ⟨v.fromClass, v.toClass, v.area_sq_km, v.confidence,
    round1 (v.area_sq_km * v.confidence * weight), weight⟩

/-- The ranking pipeline expressed on the view fields only. -/
def viewPipeline (activePersona activeScenario : String)
    (minConfidence : ℚ) (rankMode : String) (vs : List ScoreView) :
    List ScoredView :=
  let pd := sortDescBy (fun (d : ScoredView) => d.impactScore)
    ((vs.filter (filterView minConfidence activeScenario)).map
      (scoreViewRecord activePersona))
  if rankMode == "area" then
    sortDescBy (fun (d : ScoredView) => d.area_sq_km) pd
  else if rankMode == "confidence" then
    sortDescBy (fun (d : ScoredView) => d.confidence) pd
  else pd

theorem map_filter_through (f : α → γ) (p : α → Bool) (q : γ → Bool)
    (hpq : ∀ a, p a = q (f a)) :
    ∀ l : List α, (l.filter p).map f = (l.map f).filter q := by
  intro l
  induction l with
  | nil => simp
  | cons x xs ih =>
    rw [List.map_cons, List.filter_cons, List.filter_cons, ← hpq x]
    by_cases hx : p x = true <;> simp [hx, ih]

/-- The ranked output, projected to its ranking-relevant fields, is a
function of the view projection of the input alone. -/
theorem pipeline_view (activePersona activeScenario : String)
    (minConfidence : ℚ) (rankMode : String)
    (data : List TransitionRecord) :
    (getRankedData rankMode
        (prioritizedData activePersona activeScenario minConfidence
          data)).map scoredView
      = viewPipeline activePersona activeScenario minConfidence rankMode
          (data.map scoreView) := by
  have hbase :
      (prioritizedData activePersona activeScenario minConfidence
          data).map scoredView
        = sortDescBy (fun (d : ScoredView) => d.impactScore)
            (((data.map scoreView).filter
              (filterView minConfidence activeScenario)).map
                (scoreViewRecord activePersona)) := by
    rw [prioritizedData, filteredData]
    rw [map_sortDescBy (fun (d : ScoredRecord) => d.impactScore)
      (fun (d : ScoredView) => d.impactScore) scoredView (fun a => rfl)]
    rw [List.map_map]
    have hcomp : scoredView ∘ scoreRecord activePersona
        = scoreViewRecord activePersona ∘ scoreView := rfl
    rw [hcomp, ← List.map_map]
    rw [map_filter_through scoreView
      (fun d =>
        if d.confidence < minConfidence then false
        else if activeScenario == "urban" then d.toClass == "Built-up"
        else if activeScenario == "eco" then
          (d.fromClass == "Forest" || d.fromClass == "Water Body") &&
          (d.toClass == "Built-up" || d.toClass == "Barren")
        else true)
      (filterView minConfidence activeScenario) (fun a => rfl)]
  rw [getRankedData, viewPipeline]
  by_cases hra : (rankMode == "area") = true
  · rw [if_pos hra, if_pos hra]
    rw [map_sortDescBy (fun (d : ScoredRecord) => d.area_sq_km)
      (fun (d : ScoredView) => d.area_sq_km) scoredView (fun a => rfl)]
    rw [hbase]
  · rw [if_neg hra, if_neg hra]
    by_cases hrc : (rankMode == "confidence") = true
    · rw [if_pos hrc, if_pos hrc]
      rw [map_sortDescBy (fun (d : ScoredRecord) => d.confidence)
        (fun (d : ScoredView) => d.confidence) scoredView (fun a => rfl)]
      rw [hbase]
    · rw [if_neg hrc, if_neg hrc]
      exact hbase

/-- Claim C9: the PriorityRanker is deterministic on its ranking-relevant
inputs.  Two record lists agreeing on (from, to, area, confidence) at every
position produce identical impact scores, weights and ranking order, for
every persona, scenario, confidence threshold and rank mode; fields the
ranker does not read (and any display-only identifier) cannot influence the
result, and in particular repeated evaluations on equal inputs agree. -/
theorem claim_C9_ranker_deterministic (activePersona activeScenario : String)
    (minConfidence : ℚ) (rankMode : String)
    (data1 data2 : List TransitionRecord)
    (h : data1.map scoreView = data2.map scoreView) :
    (getRankedData rankMode
        (prioritizedData activePersona activeScenario minConfidence
          data1)).map scoredView
      = (getRankedData rankMode
          (prioritizedData activePersona activeScenario minConfidence
            data2)).map scoredView := by
  rw [pipeline_view, pipeline_view, h]

/-- Witness for claim C9: two one-record inputs differing only in the year
field rank identically. -/
theorem claim_C9_witness :
    (getRankedData "impact"
        (prioritizedData "policy_maker" "all" 0
          [⟨"2024", "Forest", "Built-up", 10, 0.9⟩])).map scoredView
      = (getRankedData "impact"
          (prioritizedData "policy_maker" "all" 0
            [⟨"1999", "Forest", "Built-up", 10, 0.9⟩])).map scoredView :=
  claim_C9_ranker_deterministic "policy_maker" "all" 0 "impact"
    [⟨"2024", "Forest", "Built-up", 10, 0.9⟩]
    [⟨"1999", "Forest", "Built-up", 10, 0.9⟩] rfl

end LULC
